import Mathlib

/-!
# MediaControl (mediacontrol_Linux.py) — a verification development

A shallow embedding of the pure logic of `mediacontrol_Linux.py`:
the `playerctl` command runner, the player registry, the status/volume
formatters, the transport commands and the `update_info` refresh tick.

External processes are modelled by an environment function: for `playerctl`,
a map from (argument list, optional `-p` player) to the outcome of
`subprocess.run` — `none` for a raised exception, `some (returncode, stdout)`
otherwise.  For `pactl get-sink-volume`, an `Option String` holding the raw
stdout (`none` = exception).  Tk widgets are modelled by the string variables
they display (`title_var`, `status_var`, `volume_var`, the combobox values
and its shown text).
-/

/-! ## Python string primitives used by the script

All of them are written by structural recursion over `String.data`, so that a
concrete run of the embedded program evaluates inside the kernel. -/

/-- Python `str.strip()` (whitespace at both ends; modelled over the
whitespace characters `Char.isWhitespace` recognises). -/
def pyStrip (s : String) : String :=
  String.mk (((s.data.dropWhile Char.isWhitespace).reverse.dropWhile
    Char.isWhitespace).reverse)

/-- Splits `l` at the first occurrence of the non-empty separator `sep`:
`some (before, after)`, or `none` when `sep` does not occur. -/
def splitFirst (sep : List Char) : List Char → Option (List Char × List Char)
  | [] => none
  | c :: cs =>
      if sep.isPrefixOf (c :: cs) then some ([], (c :: cs).drop sep.length)
      else
        match splitFirst sep cs with
        | some (a, b) => some (c :: a, b)
        | none => none

/-- Fuelled worker for `pySplit`; each step consumes at least one character
of a non-empty separator, so `l.length + 1` fuel always suffices. -/
def pySplitAux (sep : List Char) : Nat → List Char → List (List Char)
  | 0, l => [l]
  | fuel + 1, l =>
      match splitFirst sep l with
      | none => [l]
      | some (a, b) => a :: pySplitAux sep fuel b

/-- Python `s.split(sep)` for a non-empty separator `sep`. -/
def pySplit (sep s : String) : List String :=
  (pySplitAux sep.data (s.data.length + 1) s.data).map String.mk

/-- Python `str.splitlines()`, with `"\n"` as the line terminator:
no trailing empty line for a trailing newline, and `[]` for `""`. -/
def pySplitlines (s : String) : List String :=
  if s = "" then []
  else if s.data.getLast? = some '\n' then (pySplit "\n" s).dropLast
  else pySplit "\n" s

/-- Python `str.capitalize()`: first character upper-cased, the rest
lower-cased. -/
def pyCapitalize (s : String) : String :=
  match s.data with
  | [] => ""
  | c :: cs => String.mk (c.toUpper :: cs.map Char.toLower)

/-- Worker for `pySplitWs`: cut at every whitespace character. -/
def splitWsAux : List Char → List Char → List (List Char)
  | [], acc => [acc.reverse]
  | c :: cs, acc =>
      if c.isWhitespace then acc.reverse :: splitWsAux cs []
      else splitWsAux cs (c :: acc)

/-- Python `str.split()` with no separator: split on whitespace runs,
dropping empty pieces. -/
def pySplitWs (s : String) : List String :=
  ((splitWsAux s.data []).filter (fun t => t ≠ [])).map String.mk

/-- Python `s[:n]` on a string. -/
def pyTake (s : String) (n : Nat) : String := String.mk (s.data.take n)

/-- Python `pre in s` for a non-empty `pre`. -/
def pyIn (sub s : String) : Bool := (pySplit sub s).length > 1

/-- Python `s.startswith(pre)`. -/
def pyStartswith (s pre : String) : Bool := pre.data.isPrefixOf s.data

/-- Python `x or d` for `x` an optional string: `None` and `""` are falsy. -/
def pyOr (x : Option String) (d : String) : String :=
  match x with
  | some v => if v = "" then d else v
  | none => d

/-! ## The playerctl process layer -/

/-- Outcome of one `subprocess.run` of playerctl: `none` when the invocation
raises, `some (returncode, stdout)` otherwise. -/
def PlayerctlEnv : Type := List String → Option String → Option (Int × String)

/-- One spawned playerctl subprocess: its argument list and the optional
`-p` player it was scoped to. -/
structure Invocation where
  args : List String
  player : Option String
deriving DecidableEq

/-- `run_playerctl(*args, player=None)` (lines 76–87): returns the stripped
stdout on exit code 0, `None` on non-zero exit or exception. -/
def run_playerctl (env : PlayerctlEnv) (args : List String) (player : Option String) :
    Option String :=
  match env args player with
  | some (rc, out) => if rc = 0 then some (pyStrip out) else none
  | none => none

/-! ## Player registry -/

/-- The `--format` invocation of `get_friendly_name` (line 106); the braces
of the literal `"{{xesam:artist}} - {{xesam:title}}"` are written with
escapes. -/
def metadataFormatArgs : List String :=
  ["metadata", "--format", "\x7b\x7bxesam:artist\x7d\x7d - \x7b\x7bxesam:title\x7d\x7d"]

/-- `data[:60] + ("..." if len(data) > 60 else "")` (line 109). -/
def truncate_snippet (d : String) : String :=
  pyTake d 60 ++ (if d.length > 60 then "..." else "")

/-- `get_friendly_name(player_id)` (lines 104–111): `"App → snippet"`, the
app name being the capitalized prefix of the id before the first `"."`;
falls back to the app name alone when the metadata query yields nothing. -/
def get_friendly_name (env : PlayerctlEnv) (player_id : String) : String :=
  let data := run_playerctl env metadataFormatArgs (some player_id)
  let app := pyCapitalize (pySplit "." player_id).headI
  match data with
  | some d =>
      if d = "" then app
      else app ++ " → " ++ truncate_snippet d
  | none => app

/-- `list_players()` (lines 90–101): splits the output of `playerctl -l`
into stripped lines, drops empty lines and the "No players found" sentinel,
and pairs each id with its friendly name.  A failed or empty listing gives
`[]`. -/
def list_players (env : PlayerctlEnv) : List (String × String) :=
  match run_playerctl env ["-l"] none with
  | none => []
  | some result =>
      if result = "" then []
      else
        ((pySplitlines result).map pyStrip).filterMap (fun line =>
          if line = "" ∨ pyStartswith line "No players found" then none
          else some (line, get_friendly_name env line))

/-! ## Status and volume formatters -/

/-- `get_player_status(player)` (lines 114–121). -/
def get_player_status (env : PlayerctlEnv) (player : String) : String :=
  let status := run_playerctl env ["status"] (some player)
  if status = some "Playing" then "▶ Tocando"
  else if status = some "Paused" then "⏸ Pausado"
  else "■ Parado"

/-- `get_volume()` (lines 152–163) applied to the outcome of
`pactl get-sink-volume @DEFAULT_SINK@` (`none` = the call raised): scans the
stdout for the first line containing `"Volume:"` and returns the text between
its first and second `"/"` stripped; the sentinel `"--%"` when no such line
exists, the call raised, or the indexing raises (no `"/"` in the line). -/
def get_volume (pactl : Option String) : String :=
  match pactl with
  | none => "--%"
  | some out =>
      match (pySplitlines out).find? (fun line => pyIn "Volume:" line) with
      | some line =>
          match (pySplit "/" line).get? 1 with
          | some v => pyStrip v
          | none => "--%"
      | none => "--%"

/-! ## Transport commands -/

/-- `run_selected_cmd(cmd)` (lines 124–130), instrumented with the list of playerctl
subprocesses it spawns: with no selected player it returns `None` and spawns
nothing; otherwise it runs `cmd.split()` scoped to the selected player's id. -/
def run_selected_cmd (env : PlayerctlEnv) (selected : Option (String × String)) (cmd : String) :
    Option String × List Invocation :=
  match selected with
  | none => (none, [])
  | some p => (run_playerctl env (pySplitWs cmd) (some p.1), [⟨pySplitWs cmd, some p.1⟩])

/-! ## Application state and the refresh tick -/

/-- The script's mutable state: the globals `selected_player` and
`player_list`, and the Tk display variables. -/
structure AppState where
  selected_player : Option (String × String)
  player_list : List (String × String)
  comboValues : List String
  comboText : String
  title_var : String
  status_var : String
  volume_var : String
deriving DecidableEq

/-- One tick's external world: the playerctl environment, the raw `pactl`
stdout, and whether the root window still exists (line 199). -/
structure World where
  env : PlayerctlEnv
  pactlOut : Option String
  windowExists : Bool

/-- Lines 177–184, selection part: empty list clears the selection; a present
selection with `force` false is kept as is; otherwise
`player_list[0] if player_list else None`. -/
def resolve_selection (current : Option (String × String))
    (pl : List (String × String)) (force : Bool) : Option (String × String) :=
  if (pl.map Prod.snd).isEmpty then none
  else if current.isSome && !force then current
  else pl.head?

/-- Lines 177–184, combobox-text part: `player_combo.set("Nenhum player
ativo")` on an empty list; untouched in the keep branch; `player_combo.current(0)`
otherwise. -/
def resolve_comboText (current : Option (String × String)) (prevText : String)
    (pl : List (String × String)) (force : Bool) : String :=
  if (pl.map Prod.snd).isEmpty then "Nenhum player ativo"
  else if current.isSome && !force then prevText
  else (pl.map Prod.snd).headI

/-- `f"{title[:50]}{'...' if len(title) > 50 else ''}"` (line 193). -/
def truncate_title (t : String) : String :=
  pyTake t 50 ++ (if t.length > 50 then "..." else "")

/-- Lines 186–193, title display: placeholder with no selection, else the
truncated `metadata xesam:title` of the selected player, `"Título
indisponível"` when that query is falsy. -/
def display_title (env : PlayerctlEnv) (sel : Option (String × String)) : String :=
  match sel with
  | none => "Nenhum player selecionado"
  | some _ =>
      let title := pyOr (run_selected_cmd env sel "metadata xesam:title").1 "Título indisponível"
      truncate_title title

/-- Lines 186–194, status display: placeholder with no selection, else
`f"{artist} {status}".strip()`. -/
def display_status (env : PlayerctlEnv) (sel : Option (String × String)) : String :=
  match sel with
  | none => "Selecione um player acima"
  | some p =>
      let artist := pyOr (run_selected_cmd env sel "metadata xesam:artist").1 ""
      pyStrip (artist ++ " " ++ get_player_status env p.1)

/-- `update_info(force=False)` (lines 170–200): one refresh tick.  Returns
the new state and whether the tick reschedules itself (`root.winfo_exists()`,
line 199). -/
def update_info (w : World) (s : AppState) (force : Bool) : AppState × Bool :=
  let pl := list_players w.env
  let sel := resolve_selection s.selected_player pl force
  ({ selected_player := sel
     player_list := pl
     comboValues := pl.map Prod.snd
     comboText := resolve_comboText s.selected_player s.comboText pl force
     title_var := display_title w.env sel
     status_var := display_status w.env sel
     volume_var := get_volume w.pactlOut }, w.windowExists)

/-- `play_pause()` (line 137): fires `run_selected_cmd("play-pause")`, touching no
state. -/
def play_pause (env : PlayerctlEnv) (s : AppState) :
    AppState × (Option String × List Invocation) :=
  (s, run_selected_cmd env s.selected_player "play-pause")

/-- `next_track()` (line 138). -/
def next_track (env : PlayerctlEnv) (s : AppState) :
    AppState × (Option String × List Invocation) :=
  (s, run_selected_cmd env s.selected_player "next")

/-- `prev_track()` (line 139). -/
def prev_track (env : PlayerctlEnv) (s : AppState) :
    AppState × (Option String × List Invocation) :=
  (s, run_selected_cmd env s.selected_player "previous")

/-- `seek_forward()` (line 140). -/
def seek_forward (env : PlayerctlEnv) (s : AppState) :
    AppState × (Option String × List Invocation) :=
  (s, run_selected_cmd env s.selected_player "position 10+")

/-- `seek_backward()` (line 141). -/
def seek_backward (env : PlayerctlEnv) (s : AppState) :
    AppState × (Option String × List Invocation) :=
  (s, run_selected_cmd env s.selected_player "position 10-")

/-! ## Basic lemmas about the tick's components -/

@[simp]
theorem update_info_selected (w : World) (s : AppState) (f : Bool) :
    (update_info w s f).1.selected_player =
      resolve_selection s.selected_player (list_players w.env) f := rfl

@[simp]
theorem update_info_player_list (w : World) (s : AppState) (f : Bool) :
    (update_info w s f).1.player_list = list_players w.env := rfl

@[simp]
theorem update_info_comboValues (w : World) (s : AppState) (f : Bool) :
    (update_info w s f).1.comboValues = (list_players w.env).map Prod.snd := rfl

@[simp]
theorem update_info_comboText (w : World) (s : AppState) (f : Bool) :
    (update_info w s f).1.comboText =
      resolve_comboText s.selected_player s.comboText (list_players w.env) f := rfl

@[simp]
theorem update_info_title (w : World) (s : AppState) (f : Bool) :
    (update_info w s f).1.title_var =
      display_title w.env (resolve_selection s.selected_player (list_players w.env) f) := rfl

@[simp]
theorem update_info_status (w : World) (s : AppState) (f : Bool) :
    (update_info w s f).1.status_var =
      display_status w.env (resolve_selection s.selected_player (list_players w.env) f) := rfl

@[simp]
theorem update_info_volume (w : World) (s : AppState) (f : Bool) :
    (update_info w s f).1.volume_var = get_volume w.pactlOut := rfl

@[simp]
theorem update_info_reschedule (w : World) (s : AppState) (f : Bool) :
    (update_info w s f).2 = w.windowExists := rfl

theorem AppState.ext_fields (a b : AppState)
    (h1 : a.selected_player = b.selected_player) (h2 : a.player_list = b.player_list)
    (h3 : a.comboValues = b.comboValues) (h4 : a.comboText = b.comboText)
    (h5 : a.title_var = b.title_var) (h6 : a.status_var = b.status_var)
    (h7 : a.volume_var = b.volume_var) : a = b := by
  cases a; cases b; simp_all

theorem resolve_selection_isSome (c : Option (String × String))
    (pl : List (String × String)) (f : Bool)
    (h : (pl.map Prod.snd).isEmpty = false) :
    (resolve_selection c pl f).isSome = true := by
  unfold resolve_selection
  rw [h]
  by_cases hc : (c.isSome && !f) = true
  · simpa [hc] using (Bool.and_eq_true _ _).mp hc |>.1
  · simp only [Bool.false_eq_true, if_false, Bool.not_eq_true] at *
    rw [hc]
    cases pl with
    | nil => simp at h
    | cons a l => simp

theorem resolve_selection_keep (c : Option (String × String))
    (pl : List (String × String))
    (h : (pl.map Prod.snd).isEmpty = false) (hc : c.isSome = true) :
    resolve_selection c pl false = c := by
  unfold resolve_selection
  rw [h, Bool.not_false, Bool.and_true, hc]
  simp

theorem resolve_comboText_keep (c : Option (String × String)) (prev : String)
    (pl : List (String × String))
    (h : (pl.map Prod.snd).isEmpty = false) (hc : c.isSome = true) :
    resolve_comboText c prev pl false = prev := by
  unfold resolve_comboText
  rw [h, Bool.not_false, Bool.and_true, hc]
  simp

theorem resolve_selection_idem (c : Option (String × String))
    (pl : List (String × String)) (f : Bool) :
    resolve_selection (resolve_selection c pl f) pl false = resolve_selection c pl f := by
  by_cases h : (pl.map Prod.snd).isEmpty = true
  · simp [resolve_selection, h]
  · have h' : (pl.map Prod.snd).isEmpty = false := by simpa using h
    exact resolve_selection_keep _ _ h' (resolve_selection_isSome c pl f h')

theorem resolve_comboText_idem (c : Option (String × String)) (t : String)
    (pl : List (String × String)) (f : Bool) :
    resolve_comboText (resolve_selection c pl f) (resolve_comboText c t pl f) pl false =
      resolve_comboText c t pl f := by
  by_cases h : (pl.map Prod.snd).isEmpty = true
  · simp [resolve_comboText, h]
  · have h' : (pl.map Prod.snd).isEmpty = false := by simpa using h
    exact resolve_comboText_keep _ _ _ h' (resolve_selection_isSome c pl f h')

/-! ## Concrete worlds and states used as witnesses and counterexamples -/

/-- A playerctl environment with two active players and healthy queries. -/
def envTwo : PlayerctlEnv := fun args _ =>
  if args = ["-l"] then some (0, "spotify.instance1\nfirefox.instance2")
  else if args = ["status"] then some (0, "Playing")
  else if args = metadataFormatArgs then some (0, "A - B")
  else if args = ["metadata", "xesam:title"] then some (0, "Song")
  else if args = ["metadata", "xesam:artist"] then some (0, "Artist")
  else some (0, "")

/-- A playerctl environment whose every invocation exits non-zero. -/
def envDead : PlayerctlEnv := fun _ _ => some (1, "")

def wTwo : World := ⟨envTwo, some "Volume: front-left: 29491 /  45% / -20,86 dB", true⟩

def wEmpty : World := ⟨envDead, none, true⟩

/-- The state right after the window is built (lines 246–248). -/
def sInit : AppState := ⟨none, [], [], "", "Carregando...", "", "--%"⟩

/-- A state still holding a selection from an earlier tick. -/
def sStale : AppState :=
  ⟨some ("spotify.instance1", "Spotify → A - B"), [], [], "Spotify → A - B",
    "Song", "Artist ▶ Tocando", "45%"⟩

/-! ## The claims -/

/-- C1: for every non-empty player list, if the current selection is unset or
the refresh is invoked with force reset true, the resolved selection is the
first element of the list (index 0), and the selection combobox is set to
that first entry. -/
theorem refresh_defaults_to_first_player (w : World) (s : AppState) (force : Bool)
    (hne : list_players w.env ≠ [])
    (h : s.selected_player = none ∨ force = true) :
    (update_info w s force).1.selected_player = some ((list_players w.env).headI) ∧
    (update_info w s force).1.comboText = ((list_players w.env).map Prod.snd).headI := by
  have hcond : (s.selected_player.isSome && !force) = false := by
    rcases h with h | h
    · simp [h]
    · simp [h]
  cases hpl : list_players w.env with
  | nil => exact absurd hpl hne
  | cons a l =>
    constructor
    · rw [update_info_selected, hpl]
      simp [resolve_selection, hcond]
    · rw [update_info_comboText, hpl]
      simp [resolve_comboText, hcond]

theorem refresh_defaults_to_first_player_witness :
    (update_info wTwo sInit false).1.selected_player = some ((list_players wTwo.env).headI) ∧
    (update_info wTwo sInit false).1.comboText =
      ((list_players wTwo.env).map Prod.snd).headI :=
  refresh_defaults_to_first_player wTwo sInit false (by decide) (Or.inl rfl)

/-- C2: whenever the registry returns an empty player list, the tick clears
the selection — whatever it was before — and sets the combobox and the
display to the no-player placeholders. -/
theorem empty_list_clears_selection (w : World) (s : AppState) (f : Bool)
    (h : list_players w.env = []) :
    (update_info w s f).1.selected_player = none ∧
    (update_info w s f).1.comboText = "Nenhum player ativo" ∧
    (update_info w s f).1.title_var = "Nenhum player selecionado" ∧
    (update_info w s f).1.status_var = "Selecione um player acima" := by
  refine ⟨?_, ?_, ?_, ?_⟩ <;>
    simp [h, resolve_selection, resolve_comboText, display_title, display_status]

theorem empty_list_clears_selection_witness :
    (update_info wEmpty sStale false).1.selected_player = none ∧
    (update_info wEmpty sStale false).1.comboText = "Nenhum player ativo" ∧
    (update_info wEmpty sStale false).1.title_var = "Nenhum player selecionado" ∧
    (update_info wEmpty sStale false).1.status_var = "Selecione um player acima" :=
  empty_list_clears_selection wEmpty sStale false (by decide)

/-- C3: on a tick with a non-empty player list, a present selection that
still appears valid (its id is among the listed players) is kept unchanged
when force reset is false. -/
theorem tick_keeps_current_selection (w : World) (s : AppState) (p : String × String)
    (hne : list_players w.env ≠ [])
    (hsel : s.selected_player = some p)
    (hvalid : p.1 ∈ (list_players w.env).map Prod.fst) :
    (update_info w s false).1.selected_player = s.selected_player := by
  cases hpl : list_players w.env with
  | nil => exact absurd hpl hne
  | cons a l =>
    rw [update_info_selected, hpl]
    simp [resolve_selection, hsel]

theorem tick_keeps_current_selection_witness :
    (update_info wTwo sStale false).1.selected_player = sStale.selected_player :=
  tick_keeps_current_selection wTwo sStale ("spotify.instance1", "Spotify → A - B")
    (by decide) rfl (by decide)

/-- C8: a second refresh tick under unchanged tool outputs reproduces the
first tick's state exactly — selection, combobox contents and text, title,
status and volume. -/
theorem refresh_tick_idempotent (w : World) (s : AppState) (f : Bool) :
    update_info w (update_info w s f).1 false = update_info w s f := by
  refine Prod.ext_iff.mpr ⟨?_, rfl⟩
  apply AppState.ext_fields
  · simp only [update_info_selected]
    exact resolve_selection_idem s.selected_player (list_players w.env) f
  · rfl
  · rfl
  · simp only [update_info_comboText, update_info_selected]
    exact resolve_comboText_idem s.selected_player s.comboText (list_players w.env) f
  · simp only [update_info_title, update_info_selected]
    rw [resolve_selection_idem]
  · simp only [update_info_status, update_info_selected]
    rw [resolve_selection_idem]
  · rfl

/-! ## String facts used by the truncation and volume claims -/

theorem String.mk_data (s : String) : String.mk s.data = s := rfl

theorem string_append_empty (s : String) : s ++ "" = s := by
  cases s with
  | mk l =>
      show String.mk (l ++ []) = String.mk l
      rw [List.append_nil]

theorem pyTake_length (s : String) (n : Nat) : (pyTake s n).length = min n s.length := by
  show (s.data.take n).length = min n s.data.length
  rw [List.length_take]

theorem pyTake_of_le (s : String) (n : Nat) (h : s.length ≤ n) : pyTake s n = s := by
  unfold pyTake
  rw [List.take_of_length_le h, String.mk_data]

/-- C4: the command runner returns absent on a raised invocation or a
non-zero exit, and the whitespace-stripped stdout on exit 0. -/
theorem runner_normalizes_failures (env : PlayerctlEnv) (args : List String)
    (player : Option String) :
    (env args player = none → run_playerctl env args player = none) ∧
    (∀ rc out, env args player = some (rc, out) → rc ≠ 0 →
      run_playerctl env args player = none) ∧
    (∀ rc out, env args player = some (rc, out) → rc = 0 →
      run_playerctl env args player = some (pyStrip out)) := by
  refine ⟨fun h => ?_, fun rc out h hrc => ?_, fun rc out h hrc => ?_⟩ <;>
    simp [run_playerctl, *]

/-- C5: a title over 50 characters is displayed as its 50-character prefix
plus the 3-character ellipsis, shorter titles unchanged; the registry's
metadata snippet follows the same rule with the 60-character bound. -/
theorem truncation_rules (t d : String) (env : PlayerctlEnv) (pid : String) :
    ((t.length ≤ 50 → truncate_title t = t) ∧
     (50 < t.length →
       truncate_title t = pyTake t 50 ++ "..." ∧ (pyTake t 50).length = 50 ∧
         ("..." : String).length = 3)) ∧
    (run_playerctl env metadataFormatArgs (some pid) = some d → d ≠ "" →
      ((d.length ≤ 60 →
         get_friendly_name env pid = pyCapitalize (pySplit "." pid).headI ++ " → " ++ d) ∧
       (60 < d.length →
         get_friendly_name env pid =
             pyCapitalize (pySplit "." pid).headI ++ " → " ++ (pyTake d 60 ++ "...") ∧
           (pyTake d 60).length = 60))) := by
  constructor
  · constructor
    · intro h
      unfold truncate_title
      rw [if_neg (by omega), pyTake_of_le t 50 h, string_append_empty]
    · intro h
      refine ⟨?_, ?_, rfl⟩
      · unfold truncate_title
        rw [if_pos (by omega)]
      · rw [pyTake_length]
        omega
  · intro hdata hne
    have hgf : get_friendly_name env pid =
        pyCapitalize (pySplit "." pid).headI ++ " → " ++ truncate_snippet d := by
      simp only [get_friendly_name, hdata]
      rw [if_neg hne]
    constructor
    · intro h
      rw [hgf]
      unfold truncate_snippet
      rw [if_neg (by omega), pyTake_of_le d 60 h, string_append_empty]
    · intro h
      refine ⟨?_, ?_⟩
      · rw [hgf]
        unfold truncate_snippet
        rw [if_pos (by omega)]
      · rw [pyTake_length]
        omega

/-- C7: raw status "Playing" maps to the Playing glyph, "Paused" to the
Paused glyph, anything else — an absent status included — to the Stopped
glyph. -/
theorem status_mapping (env : PlayerctlEnv) (p : String) :
    (run_playerctl env ["status"] (some p) = some "Playing" →
      get_player_status env p = "▶ Tocando") ∧
    (run_playerctl env ["status"] (some p) = some "Paused" →
      get_player_status env p = "⏸ Pausado") ∧
    (run_playerctl env ["status"] (some p) ≠ some "Playing" →
      run_playerctl env ["status"] (some p) ≠ some "Paused" →
      get_player_status env p = "■ Parado") := by
  refine ⟨fun h => ?_, fun h => ?_, fun h1 h2 => ?_⟩ <;> simp [get_player_status, *]

/-- C10: with no selected player, every transport operation returns absent,
spawns no playerctl subprocess, and leaves the state untouched. -/
theorem transport_ops_noop_without_selection (env : PlayerctlEnv) (s : AppState)
    (h : s.selected_player = none) :
    play_pause env s = (s, (none, [])) ∧
    next_track env s = (s, (none, [])) ∧
    prev_track env s = (s, (none, [])) ∧
    seek_forward env s = (s, (none, [])) ∧
    seek_backward env s = (s, (none, [])) := by
  refine ⟨?_, ?_, ?_, ?_, ?_⟩ <;>
    simp [play_pause, next_track, prev_track, seek_forward, seek_backward,
      run_selected_cmd, h]

theorem transport_ops_noop_without_selection_witness :
    play_pause envDead sInit = (sInit, (none, [])) ∧
    next_track envDead sInit = (sInit, (none, [])) ∧
    prev_track envDead sInit = (sInit, (none, [])) ∧
    seek_forward envDead sInit = (sInit, (none, [])) ∧
    seek_backward envDead sInit = (sInit, (none, [])) :=
  transport_ops_noop_without_selection envDead sInit rfl

/-! ## C9: what a failed title query actually displays -/

/-- A world where listing and metadata work but the title query of the
selected player exits non-zero. -/
def envTitleFail : PlayerctlEnv := fun args _ =>
  if args = ["-l"] then some (0, "spotify.instance1")
  else if args = ["metadata", "xesam:title"] then some (1, "")
  else if args = ["status"] then some (0, "Playing")
  else if args = metadataFormatArgs then some (0, "A - B")
  else some (0, "")

def wTitleFail : World := ⟨envTitleFail, none, true⟩

theorem display_title_some (env : PlayerctlEnv) (p : String × String) :
    display_title env (some p) =
      truncate_title
        (pyOr (run_selected_cmd env (some p) "metadata xesam:title").1
          "Título indisponível") := rfl

/-- C9 counterexample: on a tick whose title metadata query fails for the
selected player, the displayed title is the placeholder "Título
indisponível" — not the empty title the claim states. -/
theorem failed_title_query_is_not_empty :
    run_playerctl wTitleFail.env ["metadata", "xesam:title"] (some "spotify.instance1") =
        none ∧
    (update_info wTitleFail sInit false).1.selected_player =
        some ("spotify.instance1", "Spotify → A - B") ∧
    (update_info wTitleFail sInit false).1.title_var = "Título indisponível" ∧
    (update_info wTitleFail sInit false).1.title_var ≠ "" :=
  ⟨rfl, by decide, by decide, by decide⟩

/-- C9 (amended): a failed title metadata query for the selected player
degrades to the placeholder title "Título indisponível" (not to an empty
title), and the tick still reschedules itself exactly when the window
exists, independently of any query failure. -/
theorem query_failure_degrades (w : World) (s : AppState) (f : Bool)
    (sel : String × String)
    (hsel : (update_info w s f).1.selected_player = some sel)
    (hfail : run_playerctl w.env ["metadata", "xesam:title"] (some sel.1) = none) :
    (update_info w s f).1.title_var = "Título indisponível" ∧
    (update_info w s f).2 = w.windowExists := by
  refine ⟨?_, rfl⟩
  rw [update_info_selected] at hsel
  rw [update_info_title, hsel, display_title_some]
  have hcmd : (run_selected_cmd w.env (some sel) "metadata xesam:title").1 =
      run_playerctl w.env ["metadata", "xesam:title"] (some sel.1) := rfl
  rw [hcmd, hfail]
  decide

theorem query_failure_degrades_witness :
    (update_info wTitleFail sInit false).1.title_var = "Título indisponível" ∧
    (update_info wTitleFail sInit false).2 = wTitleFail.windowExists :=
  query_failure_degrades wTitleFail sInit false ("spotify.instance1", "Spotify → A - B")
    (by decide) rfl

/-! ## C6: the volume formatter -/

theorem splitFirst_single_append (x : Char) (a b : List Char) (h : x ∉ a) :
    splitFirst [x] (a ++ x :: b) = some (a, b) := by
  induction a with
  | nil => simp [splitFirst, List.isPrefixOf]
  | cons c cs ih =>
      have h1 : x ≠ c := fun e => h (e ▸ List.mem_cons_self c cs)
      have h2 : x ∉ cs := fun m => h (List.mem_cons_of_mem c m)
      simp [splitFirst, List.isPrefixOf, beq_iff_eq, h1, ih h2]

theorem pySplitAux_single_cons (x : Char) (a rest : List Char) (h : x ∉ a) (fuel : Nat) :
    pySplitAux [x] (fuel + 1) (a ++ x :: rest) = a :: pySplitAux [x] fuel rest := by
  simp [pySplitAux, splitFirst_single_append x a rest h]

/-- The second field of a Python `split("/")` is exactly the text between the
first and the second `"/"` of the line. -/
theorem pySplit_slash_between (a b c : String)
    (ha : ('/' : Char) ∉ a.data) (hb : ('/' : Char) ∉ b.data) :
    (pySplit "/" (a ++ "/" ++ b ++ "/" ++ c)).get? 1 = some b := by
  have hsep : ("/" : String).data = ['/'] := rfl
  have hdata : (a ++ "/" ++ b ++ "/" ++ c).data
      = a.data ++ '/' :: (b.data ++ '/' :: c.data) := by
    simp [String.data_append]
  unfold pySplit
  rw [hsep, hdata]
  rw [pySplitAux_single_cons '/' a.data _ ha]
  have hL : (a.data ++ '/' :: (b.data ++ '/' :: c.data)).length
      = (b.data ++ '/' :: c.data).length + a.data.length + 1 := by
    simp [List.length_append]
    omega
  rw [hL]
  rw [show (b.data ++ '/' :: c.data).length + a.data.length + 1
      = ((b.data ++ '/' :: c.data).length + a.data.length) + 1 from rfl]
  rw [pySplitAux_single_cons '/' b.data _ hb]
  simp [String.mk_data]

/-- C6: the volume formatter returns the stripped field between the first and
second "/" of the first line carrying the "Volume:" marker, and the "--%"
sentinel when no such line exists, when the pactl call raised, or when the
marker line has no "/" (the IndexError path). -/
theorem volume_formatter_spec (pactl : Option String) :
    (pactl = none → get_volume pactl = "--%") ∧
    (∀ out, pactl = some out →
      (pySplitlines out).find? (fun l => pyIn "Volume:" l) = none →
      get_volume pactl = "--%") ∧
    (∀ out line, pactl = some out →
      (pySplitlines out).find? (fun l => pyIn "Volume:" l) = some line →
      ((∀ v, (pySplit "/" line).get? 1 = some v → get_volume pactl = pyStrip v) ∧
       ((pySplit "/" line).get? 1 = none → get_volume pactl = "--%"))) ∧
    (∀ out a b c, pactl = some out →
      (pySplitlines out).find? (fun l => pyIn "Volume:" l) =
        some (a ++ "/" ++ b ++ "/" ++ c) →
      ('/' : Char) ∉ a.data → ('/' : Char) ∉ b.data →
      get_volume pactl = pyStrip b) := by
  refine ⟨fun h => ?_, fun out h hf => ?_,
    fun out line h hf => ⟨fun v hv => ?_, fun hv => ?_⟩,
    fun out a b c h hf ha hb => ?_⟩
  · rw [h]; rfl
  · rw [h]; simp [get_volume, hf]
  · rw [h]
    rw [List.get?_eq_getElem?] at hv
    simp [get_volume, hf, hv]
  · rw [h]
    rw [List.get?_eq_getElem?] at hv
    simp [get_volume, hf, hv]
  · rw [h]
    have hbet := pySplit_slash_between a b c ha hb
    rw [List.get?_eq_getElem?] at hbet
    simp [get_volume, hf, hbet]

/-- The spec's own example line, end to end. -/
theorem get_volume_sample :
    get_volume (some "Volume: front-left: 29491 /  45% / -20,86 dB") = "45%" := by
  decide
